import Mathlib

/-!
Verification of the `fring` task-management backend (FastAPI + SQLAlchemy).

This file is a shallow embedding of the backend's core:
  * `src/auth/password.py`   — password length policy and hashing,
  * `src/auth/jwt.py`        — JWT issue / verify,
  * `src/auth/dependencies.py` — the `get_current_user` authentication dependency,
  * `src/routers/auth.py`    — the `login` handler,
  * `src/routers/users.py`   — all user endpoints,
  * `src/routers/tasks.py`   — all task endpoints,
  * `src/models/orm/todo.py` — the User / Task entities and the `user_tasks`
    many-to-many join table.

The database is modelled as an explicit state (`DB`): a list of user rows, a
list of task rows and a list of `(user_id, task_id)` join rows.  ORM object
membership tests (`user in task.assigned_users`) are modelled as membership of
the corresponding pair in the join list, which matches the ORM's identity-map
semantics for rows with equal primary keys.  SQLAlchemy's cascade on
`db.delete` (secondary-table rows referencing a deleted parent are removed) is
modelled by filtering the join list.  Timestamps are not modelled: no verified
property mentions them.

External libraries are modelled abstractly where the repository treats them as
collaborators: `passlib`'s bcrypt hashing is an abstract tagging function, and
`python-jose`'s JWT encode/decode is a record whose signature field remembers
the signing key (a signature verifies exactly when that key equals the
verifier's secret).

Fallible handlers return `Except Fail α` (for read-only handlers) or
`Except Fail (α × DB)` (for mutating handlers); raising an `HTTPException`
before `db.commit()` leaves the database unchanged, which the dispatcher
`handle` reflects by keeping the incoming state on the error path.
-/

namespace Fring

/-- HTTP-level failure: status code plus detail message
(`fastapi.HTTPException`). -/
structure Fail where
  code : Nat
  detail : String
deriving Repr, DecidableEq

/-- Boolean success test for `Except`. -/
def exOk {ε α : Type} : Except ε α → Bool
  | .ok _ => true
  | .error _ => false

/-! ## Password module — `src/auth/password.py` -/

/-- `MAX_PASSWORD_BYTES = 72` (bcrypt's input limit). -/
def MAX_PASSWORD_BYTES : Nat := 72

/-- Model of `passlib`'s `pwd_context.hash` (external library): an abstract
injective tagging of the password.  The repository only ever compares hashes
through `verify_password`, so only the round-trip behaviour matters. -/
def pwd_hash (password : String) : String :=
  "bcrypt$" ++ password

/-- `verify_password(plain_password, hashed_password)`: model of
`pwd_context.verify`. -/
def verify_password (plain_password hashed_password : String) : Bool :=
  hashed_password == pwd_hash plain_password

/-- `validate_password_length(password)`: raises `ValueError` when the
password has fewer than 8 characters or its UTF-8 encoding exceeds 72 bytes.
Python's `len` counts code points, matching `String.length`; `len(
password.encode("utf-8"))` is `String.utf8ByteSize`. -/
def validate_password_length (password : String) : Except String Unit :=
  if password.length < 8 then
    .error "Password must be at least 8 characters"
  else if MAX_PASSWORD_BYTES < password.utf8ByteSize then
    .error "Password too long"
  else
    .ok ()

/-- `get_password_hash(password)`: validates length, then hashes. -/
def get_password_hash (password : String) : Except String String :=
  match validate_password_length password with
  | .error e => .error e
  | .ok _ => .ok (pwd_hash password)

/-! ## Token module — `src/auth/jwt.py` -/

/-- A decoded JWT as the repository uses it: the `sub` claim (set by `login`
to the user's id; absent in a token minted elsewhere without it), the `exp`
claim, the `type` tag (`"access"` or `"refresh"`), and `sigKey`, the key the
token was signed with.  `sigKey` models the HMAC signature: verification with
secret `s` succeeds exactly when the token was signed with `s`; a forged or
tampered token is one whose `sigKey` differs from the verifier's secret. -/
structure Jwt where
  sub : Option Nat
  exp : Nat
  token_type : String
  sigKey : String
deriving Repr, DecidableEq

/-- `jose.JWTError` causes distinguished by `jwt.decode` / `verify_token`. -/
inductive JwtErr
  | invalidSignature
  | expiredSignature
  | invalidTokenType
deriving Repr, DecidableEq

/-- Model of `jose.jwt.decode(token, secret, algorithms=[...])` at time
`now`: checks the signature, then the `exp` claim (expired when
`exp < now`). -/
def jwt_decode (token : Jwt) (secret : String) (now : Nat) : Except JwtErr Jwt :=
  if token.sigKey ≠ secret then .error .invalidSignature
  else if token.exp < now then .error .expiredSignature
  else .ok token

/-- `ACCESS_TOKEN_EXPIRE_MINUTES = 30` (`src/config/settings.py`). -/
def ACCESS_TOKEN_EXPIRE_MINUTES : Nat := 30

/-- `REFRESH_TOKEN_EXPIRE_DAYS = 7` (`src/config/settings.py`). -/
def REFRESH_TOKEN_EXPIRE_DAYS : Nat := 7

/-- `create_access_token(data)` with `data = {"sub": user_id}`, issued at
`now` and signed with `secret`: expiry `now + 30 minutes`, type tag
`"access"`. -/
def create_access_token (user_id : Nat) (now : Nat) (secret : String) : Jwt :=
  { sub := some user_id
    exp := now + ACCESS_TOKEN_EXPIRE_MINUTES * 60
    token_type := "access"
    sigKey := secret }

/-- `create_refresh_token(data)` with `data = {"sub": user_id}`: expiry
`now + 7 days`, type tag `"refresh"`. -/
def create_refresh_token (user_id : Nat) (now : Nat) (secret : String) : Jwt :=
  { sub := some user_id
    exp := now + REFRESH_TOKEN_EXPIRE_DAYS * 24 * 60 * 60
    token_type := "refresh"
    sigKey := secret }

/-- `verify_token(token, token_type)`: decode (signature + expiry), then
require the embedded `type` tag to equal the expected one. -/
def verify_token (token : Jwt) (token_type : String) (now : Nat)
    (secret : String) : Except JwtErr Jwt :=
  match jwt_decode token secret now with
  | .error e => .error e
  | .ok payload =>
    if payload.token_type ≠ token_type then .error .invalidTokenType
    else .ok payload

/-- The configured `JWT_SECRET_KEY` (`auth_settings`), an opaque deployment
constant; the dispatcher below signs and verifies with it. -/
def jwt_secret_key : String := "JWT_SECRET_KEY"

/-! ## Data model — `src/models/orm/todo.py`, `src/models/schemas.py` -/

/-- `TaskStatus` enum (`src/models/schemas.py`). -/
inductive TaskStatus
  | todo
  | in_progress
  | completed
  | canceled
deriving Repr, DecidableEq

/-- `TaskStatus(status)` string parsing: the enum's string values. -/
def TaskStatus.fromString (s : String) : Option TaskStatus :=
  if s == "todo" then some .todo
  else if s == "in_progress" then some .in_progress
  else if s == "completed" then some .completed
  else if s == "canceled" then some .canceled
  else none

/-- `User` row (`users` table). -/
structure User where
  id : Nat
  username : String
  email : String
  password_hash : String
  is_active : Bool
deriving Repr, DecidableEq

/-- `Task` row (`tasks` table). -/
structure Task where
  id : Nat
  title : String
  description : Option String
  status : TaskStatus
deriving Repr, DecidableEq

/-- Database state: `users` and `tasks` tables plus the `user_tasks`
many-to-many join table of `(user_id, task_id)` pairs. -/
structure DB where
  users : List User
  tasks : List Task
  assignments : List (Nat × Nat)
deriving Repr, DecidableEq

/-- A join row `(user_id, task_id)` exists. -/
def DB.isAssigned (db : DB) (user_id task_id : Nat) : Bool :=
  db.assignments.contains (user_id, task_id)

/-- `task.assigned_users`: users joined to the task. -/
def DB.assigned_users (db : DB) (t : Task) : List User :=
  db.users.filter (fun u => db.isAssigned u.id t.id)

/-- `user.tasks`: tasks joined to the user. -/
def DB.user_tasks (db : DB) (u : User) : List Task :=
  db.tasks.filter (fun t => db.isAssigned u.id t.id)

/-- SQLite's rowid autoincrement for an omitted primary key: one more than
the largest id in use. -/
def nextId (ids : List Nat) : Nat :=
  ids.foldr max 0 + 1

/-- Well-formedness maintained by the database schema: primary keys are
unique, and the `user_tasks` primary key `(user_id, task_id)` is unique. -/
def DB.WF (db : DB) : Prop :=
  (db.users.map User.id).Nodup ∧ (db.tasks.map Task.id).Nodup ∧
    db.assignments.Nodup

instance (db : DB) : Decidable db.WF := by
  unfold DB.WF
  infer_instance

/-- Substring test, modelling SQL `LIKE '%s%'` (SQLAlchemy `.contains`) and
Python's `in`. -/
def strContains (s sub : String) : Bool :=
  if sub == "" then true else (s.splitOn sub).length ≥ 2

/-! ## Request bodies — `src/models/schemas.py` -/

/-- `UserModel` request body.  (The `assigned_to` field of responses plays no
role in any handler.) -/
structure UserModel where
  id : Option Nat
  username : String
  email : String
  password : Option String
deriving Repr, DecidableEq

/-- `UserUpdate` body; a `none` field is an unset field
(`dict(exclude_unset=True)`). -/
structure UserUpdate where
  username : Option String
  email : Option String
deriving Repr, DecidableEq

/-- `TaskModel` request body.  `assigned_to` is excluded by `create_task`
(`task.dict(exclude={"assigned_to"})`) and therefore not modelled. -/
structure TaskModel where
  id : Option Nat
  title : String
  description : Option String
  status : TaskStatus
deriving Repr, DecidableEq

/-- `TaskUpdate` body; a `none` field is an unset field. -/
structure TaskUpdate where
  title : Option String
  description : Option String
  status : Option TaskStatus
deriving Repr, DecidableEq

/-- `UserLogin` body. -/
structure UserLogin where
  username : String
  password : String
deriving Repr, DecidableEq

/-! ## User endpoints — `src/routers/users.py`

None of these handlers takes the `get_current_user` dependency: the user
router is reachable without any token. -/

/-- `POST /users/` (`create_user`).  Python truthiness: a missing or empty
password is "Password is required". -/
def create_user (user : UserModel) (db : DB) : Except Fail (User × DB) :=
  let pwOpt := match user.password with
    | none => none
    | some pw => if pw == "" then none else some pw
  match pwOpt with
  | none => .error ⟨400, "Password is required"⟩
  | some pw =>
    if pw.length < 8 then
      .error ⟨400, "Password must be at least 8 characters"⟩
    else
      match db.users.find?
          (fun u => u.username == user.username || u.email == user.email) with
      | some existing_user =>
        if existing_user.username == user.username then
          .error ⟨400, "Already existing username"⟩
        else
          .error ⟨400, "Already existing email"⟩
      | none =>
        match get_password_hash pw with
        | .error _ => .error ⟨500, "Internal Server Error"⟩
        | .ok h =>
          let uid := match user.id with
            | some i => i
            | none => nextId (db.users.map User.id)
          if db.users.any (fun u => u.id == uid) then
            -- primary-key conflict on an explicitly supplied id: the
            -- uncaught IntegrityError surfaces as a 500
            .error ⟨500, "Internal Server Error"⟩
          else
            let db_user : User :=
              { id := uid, username := user.username, email := user.email
                password_hash := h, is_active := true }
            .ok (db_user, { db with users := db.users ++ [db_user] })

/-- `GET /users/` (`get_users`): optional substring filters, then
offset/limit.  An empty filter string is falsy and ignored. -/
def get_users (skip limit : Nat) (username email : Option String)
    (db : DB) : List User :=
  let q := db.users
  let q := match username with
    | some s => if s == "" then q else q.filter (fun u => strContains u.username s)
    | none => q
  let q := match email with
    | some s => if s == "" then q else q.filter (fun u => strContains u.email s)
    | none => q
  (q.drop skip).take limit

/-- `GET /users/{user_id}` (`get_user`): a missing user raises
`UserException`, which is HTTP **400**. -/
def get_user (user_id : Nat) (db : DB) : Except Fail User :=
  match db.users.find? (fun u => u.id == user_id) with
  | none => .error ⟨400, "User ID " ++ toString user_id ++ " not found"⟩
  | some u => .ok u

/-- `PUT /users/{user_id}` (`update_user`). -/
def update_user (user_id : Nat) (user_update : UserUpdate) (db : DB) :
    Except Fail (User × DB) :=
  match get_user user_id db with
  | .error e => .error e
  | .ok user =>
    let usernameClash := match user_update.username with
      | some un => db.users.any (fun u => u.username == un && u.id != user_id)
      | none => false
    if usernameClash then .error ⟨400, "Username already used"⟩
    else
      let emailClash := match user_update.email with
        | some em => db.users.any (fun u => u.email == em && u.id != user_id)
        | none => false
      if emailClash then .error ⟨400, "Email already used"⟩
      else
        let user2 : User :=
          { user with
            username := user_update.username.getD user.username
            email := user_update.email.getD user.email }
        .ok (user2,
          { db with users :=
              db.users.map (fun u => if u.id == user_id then user2 else u) })

/-- `DELETE /users/{user_id}` (`delete_user`): `db.delete(user)`; the
`user_tasks` rows referencing the user are removed by the ORM/FK cascade,
the tasks themselves are untouched. -/
def delete_user (user_id : Nat) (db : DB) : Except Fail (Unit × DB) :=
  match get_user user_id db with
  | .error e => .error e
  | .ok _user =>
    .ok ((),
      { db with
        users := db.users.filter (fun u => u.id != user_id)
        assignments := db.assignments.filter (fun p => p.1 != user_id) })

/-- `GET /users/{user_id}/tasks` (`get_user_tasks`): every task of the named
user, optionally filtered by a status string; no authentication and no check
against any caller's assignments. -/
def get_user_tasks (user_id : Nat) (status : Option String) (db : DB) :
    Except Fail (List Task) :=
  match get_user user_id db with
  | .error e => .error e
  | .ok user =>
    let tasks := db.user_tasks user
    match status with
    | none => .ok tasks
    | some s =>
      if s == "" then .ok tasks
      else
        match TaskStatus.fromString s with
        | some status_enum => .ok (tasks.filter (fun t => t.status == status_enum))
        | none => .error ⟨400, "Status '" ++ s ++ "' not valid"⟩

/-- `POST /users/{user_id}/tasks/{task_id}` (`assign_task_to_user`): both
"missing task" and "already assigned" raise `UserException` (400). -/
def assign_task_to_user (user_id task_id : Nat) (db : DB) :
    Except Fail (String × DB) :=
  match get_user user_id db with
  | .error e => .error e
  | .ok user =>
    match db.tasks.find? (fun t => t.id == task_id) with
    | none => .error ⟨400, "Task ID " ++ toString task_id ++ " not found"⟩
    | some task =>
      if db.isAssigned user.id task.id then
        .error ⟨400, "Task already assigned to the user"⟩
      else
        .ok ("Task assigned",
          { db with assignments := db.assignments ++ [(user.id, task.id)] })

/-- `DELETE /users/{user_id}/tasks/{task_id}` (`remove_task_from_user`). -/
def remove_task_from_user (user_id task_id : Nat) (db : DB) :
    Except Fail (Unit × DB) :=
  match get_user user_id db with
  | .error e => .error e
  | .ok user =>
    match db.tasks.find? (fun t => t.id == task_id) with
    | none => .error ⟨400, "Task ID " ++ toString task_id ++ " not found"⟩
    | some task =>
      if !db.isAssigned user.id task.id then
        .error ⟨400, "Task not assigned to this user"⟩
      else
        .ok ((),
          { db with assignments :=
              db.assignments.filter (fun p => p != (user.id, task.id)) })

/-! ## Authentication dependency — `src/auth/dependencies.py` -/

/-- The `Authorization` request header: either a bearer token or some other
scheme.  The code only accepts headers starting with `"Bearer "`; any other
header value falls through to the cookie. -/
inductive AuthHeader
  | bearer (token : Jwt)
  | other (value : String)
deriving Repr, DecidableEq

/-- Token extraction in `get_current_user`: the bearer `Authorization` header
is tried first; the `access_token` cookie is the fallback. -/
def extractToken (authorization : Option AuthHeader)
    (access_token_cookie : Option Jwt) : Option Jwt :=
  match authorization with
  | some (.bearer t) => some t
  | some (.other _) => access_token_cookie
  | none => access_token_cookie

/-- `get_current_user`: resolve the request's token (header before cookie),
verify it as an `"access"` token, read the `sub` claim, load the user, and
require it to be active.  Every failure is a 401. -/
def get_current_user (authorization : Option AuthHeader)
    (access_token_cookie : Option Jwt) (db : DB) (now : Nat)
    (secret : String) : Except Fail User :=
  match extractToken authorization access_token_cookie with
  | none => .error ⟨401, "Not authenticated"⟩
  | some access_token =>
    match verify_token access_token "access" now secret with
    | .error _ => .error ⟨401, "Invalid or expired token"⟩
    | .ok payload =>
      match payload.sub with
      | none =>
        -- the 401 raised for a missing sub is re-raised by the generic
        -- `except Exception` handler with detail "Authentication error"
        .error ⟨401, "Authentication error"⟩
      | some user_id =>
        match db.users.find? (fun u => u.id == user_id) with
        | none => .error ⟨401, "User not found or inactive"⟩
        | some user =>
          if user.is_active then .ok user
          else .error ⟨401, "User not found or inactive"⟩

/-! ## Login — `src/routers/auth.py` -/

/-- `POST /auth/login` (`login`): an unknown username and a wrong password
produce the same 401 with the same generic detail; an inactive account is a
distinct 401; success issues an access and a refresh token for the user. -/
def login (credentials : UserLogin) (db : DB) (now : Nat) (secret : String) :
    Except Fail (Jwt × Jwt) :=
  match db.users.find? (fun u => u.username == credentials.username) with
  | none => .error ⟨401, "Incorrect username or password"⟩
  | some user =>
    if !verify_password credentials.password user.password_hash then
      .error ⟨401, "Incorrect username or password"⟩
    else if !user.is_active then
      .error ⟨401, "User account is inactive"⟩
    else
      .ok (create_access_token user.id now secret,
           create_refresh_token user.id now secret)

/-! ## Task endpoints — `src/routers/tasks.py`

Every handler here takes `current_user` from the `get_current_user`
dependency; the dispatcher below runs the dependency first. -/

/-- `POST /tasks/` (`create_task`): reject a truthy id that is already used
(an id of 0 is falsy in Python and skips the check, hitting the database's
IntegrityError instead), then insert the task and auto-assign the creator. -/
def insert_task (tid : Nat) (task : TaskModel) (current_user : User)
    (db : DB) : Task × DB :=
  let db_task : Task :=
    { id := tid, title := task.title, description := task.description
      status := task.status }
  (db_task,
    { db with
      tasks := db.tasks ++ [db_task]
      assignments := db.assignments ++ [(current_user.id, db_task.id)] })

def create_task (task : TaskModel) (current_user : User) (db : DB) :
    Except Fail (Task × DB) :=
  match task.id with
  | some i =>
    if i != 0 && db.tasks.any (fun t => t.id == i) then
      .error ⟨400, "ID already used"⟩
    else if db.tasks.any (fun t => t.id == i) then
      -- only reachable for the Python-falsy id 0: the primary-key conflict
      -- surfaces as an uncaught IntegrityError (500)
      .error ⟨500, "Internal Server Error"⟩
    else .ok (insert_task i task current_user db)
  | none => .ok (insert_task (nextId (db.tasks.map Task.id)) task current_user db)

/-- `GET /tasks/` (`get_tasks`): tasks joined to the current user, optional
status filter and title substring filter, then offset/limit.  An empty title
string is falsy and ignored. -/
def get_tasks (skip limit : Nat) (status : Option TaskStatus)
    (title : Option String) (current_user : User) (db : DB) : List Task :=
  let q : List Task := db.tasks.filter (fun t => db.isAssigned current_user.id t.id)
  let q : List Task := match status with
    | some s => q.filter (fun t => t.status == s)
    | none => q
  let q : List Task := match title with
    | some s => if s == "" then q else q.filter (fun t => strContains t.title s)
    | none => q
  (q.drop skip).take limit

/-- `GET /tasks/{task_id}` (`get_task`): 404 when the task does not exist,
403 when the current user is not in its assigned set. -/
def get_task (task_id : Nat) (current_user : User) (db : DB) :
    Except Fail Task :=
  match db.tasks.find? (fun t => t.id == task_id) with
  | none => .error ⟨404, "Task not found"⟩
  | some task =>
    if db.isAssigned current_user.id task.id then .ok task
    else .error ⟨403, "Not authorized to access this task"⟩

/-- `PUT /tasks/{task_id}` (`update_task`): access via `get_task`, then set
the fields present in the body. -/
def update_task (task_id : Nat) (task_update : TaskUpdate)
    (current_user : User) (db : DB) : Except Fail (Task × DB) :=
  match get_task task_id current_user db with
  | .error e => .error e
  | .ok task =>
    let task2 : Task :=
      { task with
        title := task_update.title.getD task.title
        description := match task_update.description with
          | some d => some d
          | none => task.description
        status := task_update.status.getD task.status }
    .ok (task2,
      { db with tasks := db.tasks.map (fun t => if t.id == task_id then task2 else t) })

/-- `DELETE /tasks/{task_id}` (`delete_task`): access via `get_task`;
`db.delete(task)` removes the task and (by cascade) its join rows, leaving
users untouched. -/
def delete_task (task_id : Nat) (current_user : User) (db : DB) :
    Except Fail (Unit × DB) :=
  match get_task task_id current_user db with
  | .error e => .error e
  | .ok _task =>
    .ok ((),
      { db with
        tasks := db.tasks.filter (fun t => t.id != task_id)
        assignments := db.assignments.filter (fun p => p.2 != task_id) })

/-- `GET /tasks/{task_id}/users` (`get_task_users`). -/
def get_task_users (task_id : Nat) (current_user : User) (db : DB) :
    Except Fail (List User) :=
  match get_task task_id current_user db with
  | .error e => .error e
  | .ok task => .ok (db.assigned_users task)

/-- `POST /tasks/{task_id}/users/{user_id}` (`assign_user_to_task`): access
via `get_task`, user lookup via the user router's `get_user` (so a missing
user is a 400), duplicate assignment is a 400. -/
def assign_user_to_task (task_id user_id : Nat) (current_user : User)
    (db : DB) : Except Fail (String × DB) :=
  match get_task task_id current_user db with
  | .error e => .error e
  | .ok task =>
    match get_user user_id db with
    | .error e => .error e
    | .ok user =>
      if db.isAssigned user.id task.id then
        .error ⟨400, "User already assigned to this task"⟩
      else
        .ok ("User assigned",
          { db with assignments := db.assignments ++ [(user.id, task.id)] })

/-- `DELETE /tasks/{task_id}/users/{user_id}` (`remove_user_from_task`). -/
def remove_user_from_task (task_id user_id : Nat) (current_user : User)
    (db : DB) : Except Fail (Unit × DB) :=
  match get_task task_id current_user db with
  | .error e => .error e
  | .ok task =>
    match get_user user_id db with
    | .error e => .error e
    | .ok user =>
      if !db.isAssigned user.id task.id then
        .error ⟨400, "User not assigned to this task"⟩
      else
        .ok ((),
          { db with assignments :=
              db.assignments.filter (fun p => p != (user.id, task.id)) })

/-- `PATCH /tasks/{task_id}/status` (`update_task_status`). -/
def update_task_status (task_id : Nat) (status : TaskStatus)
    (current_user : User) (db : DB) : Except Fail (Task × DB) :=
  match get_task task_id current_user db with
  | .error e => .error e
  | .ok task =>
    let task2 : Task := { task with status := status }
    .ok (task2,
      { db with tasks := db.tasks.map (fun t => if t.id == task_id then task2 else t) })

/-! ## Request dispatch — `main.py` routing over the two routers

One constructor per route of `src/routers/users.py` and
`src/routers/tasks.py`, carrying the route's path/query/body parameters. -/

/-- A request to a user or task endpoint. -/
inductive ApiReq
  | createTask (body : TaskModel)
  | listTasks (skip limit : Nat) (status : Option TaskStatus) (title : Option String)
  | getTaskById (task_id : Nat)
  | updateTaskById (task_id : Nat) (body : TaskUpdate)
  | deleteTaskById (task_id : Nat)
  | taskUsers (task_id : Nat)
  | assignUserTask (task_id user_id : Nat)
  | removeUserTask (task_id user_id : Nat)
  | patchTaskStatus (task_id : Nat) (status : TaskStatus)
  | createUserReq (body : UserModel)
  | listUsers (skip limit : Nat) (username email : Option String)
  | getUserById (user_id : Nat)
  | updateUserById (user_id : Nat) (body : UserUpdate)
  | deleteUserById (user_id : Nat)
  | userTasks (user_id : Nat) (status : Option String)
  | assignTaskUser (user_id task_id : Nat)
  | removeTaskUser (user_id task_id : Nat)
deriving Repr, DecidableEq

/-- The task-router routes: exactly the handlers declared with
`current_user: User = Depends(get_current_user)` in the source. -/
def ApiReq.isTaskEndpoint : ApiReq → Bool
  | .createTask _ => true
  | .listTasks _ _ _ _ => true
  | .getTaskById _ => true
  | .updateTaskById _ _ => true
  | .deleteTaskById _ => true
  | .taskUsers _ => true
  | .assignUserTask _ _ => true
  | .removeUserTask _ _ => true
  | .patchTaskStatus _ _ => true
  | _ => false

/-- Outcome of a mutating handler as (status code, next database): errors
roll back to the incoming state. -/
def outM {α : Type} (success : Nat) (db : DB) :
    Except Fail (α × DB) → Nat × DB
  | .ok (_, db2) => (success, db2)
  | .error e => (e.code, db)

/-- Outcome of a read-only handler. -/
def outR {α : Type} (success : Nat) (db : DB) :
    Except Fail α → Nat × DB
  | .ok _ => (success, db)
  | .error e => (e.code, db)

/-- Dispatch a request: task-router handlers run `get_current_user` first
(FastAPI resolves the dependency before the handler body); user-router
handlers never consult the token. -/
def handle (authorization : Option AuthHeader) (cookie : Option Jwt)
    (now : Nat) (req : ApiReq) (db : DB) : Nat × DB :=
  match req with
  | .createTask body =>
    match get_current_user authorization cookie db now jwt_secret_key with
    | .error e => (e.code, db)
    | .ok cu => outM 201 db (create_task body cu db)
  | .listTasks _ _ _ _ =>
    match get_current_user authorization cookie db now jwt_secret_key with
    | .error e => (e.code, db)
    | .ok _cu => (200, db)
  | .getTaskById task_id =>
    match get_current_user authorization cookie db now jwt_secret_key with
    | .error e => (e.code, db)
    | .ok cu => outR 200 db (get_task task_id cu db)
  | .updateTaskById task_id body =>
    match get_current_user authorization cookie db now jwt_secret_key with
    | .error e => (e.code, db)
    | .ok cu => outM 200 db (update_task task_id body cu db)
  | .deleteTaskById task_id =>
    match get_current_user authorization cookie db now jwt_secret_key with
    | .error e => (e.code, db)
    | .ok cu => outM 204 db (delete_task task_id cu db)
  | .taskUsers task_id =>
    match get_current_user authorization cookie db now jwt_secret_key with
    | .error e => (e.code, db)
    | .ok cu => outR 200 db (get_task_users task_id cu db)
  | .assignUserTask task_id user_id =>
    match get_current_user authorization cookie db now jwt_secret_key with
    | .error e => (e.code, db)
    | .ok cu => outM 201 db (assign_user_to_task task_id user_id cu db)
  | .removeUserTask task_id user_id =>
    match get_current_user authorization cookie db now jwt_secret_key with
    | .error e => (e.code, db)
    | .ok cu => outM 204 db (remove_user_from_task task_id user_id cu db)
  | .patchTaskStatus task_id status =>
    match get_current_user authorization cookie db now jwt_secret_key with
    | .error e => (e.code, db)
    | .ok cu => outM 200 db (update_task_status task_id status cu db)
  | .createUserReq body => outM 201 db (create_user body db)
  | .listUsers _ _ _ _ => (200, db)
  | .getUserById user_id => outR 200 db (get_user user_id db)
  | .updateUserById user_id body => outM 200 db (update_user user_id body db)
  | .deleteUserById user_id => outM 204 db (delete_user user_id db)
  | .userTasks user_id status => outR 200 db (get_user_tasks user_id status db)
  | .assignTaskUser user_id task_id => outM 201 db (assign_task_to_user user_id task_id db)
  | .removeTaskUser user_id task_id => outM 204 db (remove_task_from_user user_id task_id db)

/-! ## Concrete fixtures for witnesses and counterexamples -/

/-- A first active user. -/
def userA : User :=
  { id := 1, username := "alice", email := "alice@example.com"
    password_hash := pwd_hash "password123", is_active := true }

/-- A second active user. -/
def userB : User :=
  { id := 2, username := "bob", email := "bob@example.com"
    password_hash := pwd_hash "password123", is_active := true }

/-- A task with id 1. -/
def taskT : Task :=
  { id := 1, title := "Task one", description := none, status := .todo }

/-- The empty database. -/
def emptyDB : DB := { users := [], tasks := [], assignments := [] }

/-- Two users, one task, assigned only to `userB`. -/
def dbLeak : DB :=
  { users := [userA, userB], tasks := [taskT], assignments := [(2, 1)] }

/-- Two users, one task, assigned to both. -/
def dbBoth : DB :=
  { users := [userA, userB], tasks := [taskT], assignments := [(1, 1), (2, 1)] }

/-- One user, one task, no assignment. -/
def dbUnassigned : DB :=
  { users := [userA], tasks := [taskT], assignments := [] }

/-- A valid access token for `userA`, minted at time 0. -/
def tokenA : Jwt := create_access_token 1 0 jwt_secret_key

/-! ## Helper lemmas -/

/-- In a list whose keys are pairwise distinct, `find?` on a member's key
returns exactly that member. -/
theorem find?_by_key {α : Type} (key : α → Nat) :
    ∀ (l : List α), (l.map key).Nodup → ∀ a ∈ l,
      l.find? (fun x => key x == key a) = some a := by
  intro l
  induction l with
  | nil => intro _ a ha; cases ha
  | cons b t ih =>
    intro hnd a ha
    rw [List.map_cons, List.nodup_cons] at hnd
    rcases List.mem_cons.mp ha with rfl | hat
    · exact List.find?_cons_of_pos _ (by simp)
    · have hne : key b ≠ key a := by
        intro he
        exact hnd.1 (he ▸ List.mem_map_of_mem key hat)
      rw [List.find?_cons_of_neg _ (by simpa using hne)]
      exact ih hnd.2 a hat

/-- Every failure of `get_current_user` is a 401. -/
theorem get_current_user_code (authorization : Option AuthHeader)
    (cookie : Option Jwt) (db : DB) (now : Nat) (secret : String) (e : Fail) :
    get_current_user authorization cookie db now secret = .error e →
    e.code = 401 := by
  intro h
  unfold get_current_user at h
  split at h
  · cases h; rfl
  · split at h
    · cases h; rfl
    · split at h
      · cases h; rfl
      · split at h
        · cases h; rfl
        · split at h
          · cases h
          · cases h; rfl

/-! ## Claim theorems -/

/-- C7: `get_password_hash` succeeds exactly for passwords of at least 8
characters whose UTF-8 encoding is at most 72 bytes; shorter or longer
passwords raise a `ValueError`. -/
theorem password_hash_ok_iff (password : String) :
    exOk (get_password_hash password) = true ↔
      8 ≤ password.length ∧ password.utf8ByteSize ≤ 72 := by
  rcases Nat.lt_or_ge password.length 8 with h1 | h1
  · simp [get_password_hash, validate_password_length, h1, exOk]
  · rcases Nat.lt_or_ge MAX_PASSWORD_BYTES password.utf8ByteSize with h2 | h2
    · simp [get_password_hash, validate_password_length, Nat.not_lt.mpr h1, h2, exOk]
      unfold MAX_PASSWORD_BYTES at h2
      omega
    · simp [get_password_hash, validate_password_length, Nat.not_lt.mpr h1,
        Nat.not_lt.mpr h2, exOk]
      unfold MAX_PASSWORD_BYTES at h2
      omega

/-- C4: a login whose username is unknown and a login whose password does not
verify produce the identical response: 401 with the generic detail
"Incorrect username or password", so the two causes are indistinguishable. -/
theorem login_generic_401 (db : DB) (credentials : UserLogin) (now : Nat)
    (secret : String)
    (hfail : db.users.find? (fun u => u.username == credentials.username) = none
      ∨ ∃ u, db.users.find? (fun u2 => u2.username == credentials.username) = some u
          ∧ verify_password credentials.password u.password_hash = false) :
    login credentials db now secret =
      .error ⟨401, "Incorrect username or password"⟩ := by
  unfold login
  rcases hfail with hnone | ⟨u, hu, hv⟩
  · rw [hnone]
  · rw [hu]
    simp [hv]

/-- C4 witness: on a concrete database, the wrong-password case yields the
generic 401. -/
theorem login_generic_401_witness :
    login ⟨"alice", "wrong"⟩ dbBoth 0 "k" =
      .error ⟨401, "Incorrect username or password"⟩ :=
  login_generic_401 dbBoth ⟨"alice", "wrong"⟩ 0 "k"
    (Or.inr ⟨userA, by rfl, by rfl⟩)

/-- C10: every successful `create_task` auto-assigns the creator: the new
task is in the resulting database and the join row (creator id, task id)
exists there. -/
theorem create_task_auto_assigns (body : TaskModel) (current_user : User)
    (db : DB) (t : Task) (db2 : DB)
    (hok : create_task body current_user db = .ok (t, db2)) :
    t ∈ db2.tasks ∧ db2.isAssigned current_user.id t.id = true := by
  have hmem : ∀ tid, insert_task tid body current_user db = (t, db2) →
      t ∈ db2.tasks ∧ db2.isAssigned current_user.id t.id = true := by
    intro tid h
    cases h
    constructor
    · exact List.mem_append_right _ (List.mem_singleton.mpr rfl)
    · simp [DB.isAssigned, List.contains]
  unfold create_task at hok
  split at hok
  · split at hok
    · cases hok
    · split at hok
      · cases hok
      · exact hmem _ (by cases hok; rfl)
  · exact hmem _ (by cases hok; rfl)

/-- C10 witness: creating a task on a concrete database assigns it to the
creator. -/
theorem create_task_auto_assigns_witness :
    let t : Task := ⟨2, "New", none, .todo⟩
    let db2 : DB := ⟨dbBoth.users, dbBoth.tasks ++ [t],
      dbBoth.assignments ++ [(1, 2)]⟩
    t ∈ db2.tasks ∧ db2.isAssigned 1 t.id = true :=
  create_task_auto_assigns ⟨none, "New", none, .todo⟩ userA dbBoth
    ⟨2, "New", none, .todo⟩ _ (by rfl)

/-- C7 witness: a valid 11-character ASCII password hashes successfully. -/
theorem password_hash_ok_iff_witness :
    exOk (get_password_hash "password123") = true :=
  (password_hash_ok_iff "password123").mpr (by decide)

/-- C5: an access token issued for a user embeds the type tag "access" and
that user's id as subject; before expiry it verifies as an access token,
returning those claims; `verify_token` fails exactly when the signature is
invalid, the token is expired, or the embedded type tag differs from the
expected one — in particular a refresh token never verifies as an access
token. -/
theorem token_round_trip (user_id now t2 : Nat) (secret : String) :
    ((create_access_token user_id now secret).token_type = "access"
      ∧ (create_access_token user_id now secret).sub = some user_id)
    ∧ (t2 ≤ now + ACCESS_TOKEN_EXPIRE_MINUTES * 60 →
        verify_token (create_access_token user_id now secret) "access" t2 secret =
          .ok (create_access_token user_id now secret))
    ∧ (∀ (token : Jwt) (expected : String),
        exOk (verify_token token expected t2 secret) = false ↔
          (token.sigKey ≠ secret ∨ token.exp < t2 ∨ token.token_type ≠ expected))
    ∧ exOk (verify_token (create_refresh_token user_id now secret) "access" t2 secret)
        = false := by
  refine ⟨⟨rfl, rfl⟩, ?_, ?_, ?_⟩
  · intro hexp
    unfold verify_token jwt_decode create_access_token
    simp [Nat.not_lt.mpr hexp]
  · intro token expected
    unfold verify_token jwt_decode exOk
    by_cases hs : token.sigKey = secret
    · by_cases he : token.exp < t2
      · simp [hs, he]
      · by_cases ht : token.token_type = expected
        · simp [hs, he, ht]
        · simp [hs, he, ht]
    · simp [hs]
  · unfold verify_token jwt_decode create_refresh_token exOk
    by_cases he : now + REFRESH_TOKEN_EXPIRE_DAYS * 24 * 60 * 60 < t2
    · simp [he]
    · simp [he]

/-- C5 witness: concrete round-trip at issue time 0 and verify time 100, and
a refresh token rejected as an access token. -/
theorem token_round_trip_witness :
    verify_token (create_access_token 1 0 "k") "access" 100 "k" =
      .ok (create_access_token 1 0 "k")
    ∧ exOk (verify_token (create_refresh_token 1 0 "k") "access" 100 "k") = false :=
  ⟨(token_round_trip 1 0 100 "k").2.1 (by decide),
   (token_round_trip 1 0 100 "k").2.2.2⟩

/-- C6: authentication resolution.  A bearer `Authorization` header takes
precedence and the cookie is ignored; a non-bearer or absent header falls
back to the cookie; resolution succeeds exactly when a token was found, it
verifies as an access token, its subject names an existing user, and that
user is active; every failure is a 401. -/
theorem auth_resolution (a : Option AuthHeader) (c c2 : Option Jwt) (t : Jwt)
    (x : String) (db : DB) (now : Nat) (secret : String) :
    (get_current_user (some (.bearer t)) c db now secret =
       get_current_user (some (.bearer t)) c2 db now secret)
    ∧ (get_current_user (some (.other x)) c db now secret =
       get_current_user none c db now secret)
    ∧ ((∃ u, get_current_user a c db now secret = .ok u) ↔
        ∃ token, extractToken a c = some token ∧
          ∃ payload, verify_token token "access" now secret = .ok payload ∧
            ∃ user_id, payload.sub = some user_id ∧
              ∃ u, db.users.find? (fun v => v.id == user_id) = some u ∧
                u.is_active = true)
    ∧ (∀ e, get_current_user a c db now secret = .error e → e.code = 401) := by
  refine ⟨rfl, rfl, ?_, fun e h => get_current_user_code a c db now secret e h⟩
  unfold get_current_user
  cases hx : extractToken a c with
  | none => simp [hx]
  | some token =>
    cases hv : verify_token token "access" now secret with
    | error e => simp [hx, hv]
    | ok payload =>
      cases hs : payload.sub with
      | none => simp [hx, hv, hs]
      | some user_id =>
        cases hf : db.users.find? (fun v => v.id == user_id) with
        | none => simp [hx, hv, hs, hf]
        | some u =>
          by_cases ha : u.is_active <;> simp [hx, hv, hs, hf, ha]

/-- C6 witness: a concrete bearer-token request resolves to `userA`
whatever the cookie carries, and a concrete tokenless request yields 401. -/
theorem auth_resolution_witness :
    get_current_user (some (.bearer tokenA)) (some tokenA) dbBoth 10 jwt_secret_key =
      get_current_user (some (.bearer tokenA)) none dbBoth 10 jwt_secret_key
    ∧ (∃ u, get_current_user (some (.bearer tokenA)) none dbBoth 10 jwt_secret_key
        = .ok u) :=
  ⟨(auth_resolution (some (.bearer tokenA)) (some tokenA) none tokenA "x" dbBoth
      10 jwt_secret_key).1,
   (auth_resolution (some (.bearer tokenA)) none none tokenA "x" dbBoth
      10 jwt_secret_key).2.2.1.mpr
     ⟨tokenA, rfl, tokenA, by rfl, 1, rfl, userA, by rfl, rfl⟩⟩

/-- C9: deleting a user removes that user and exactly the join rows naming
it, leaving every task row unchanged; deleting a task removes that task and
exactly the join rows naming it, leaving every user row unchanged. -/
theorem delete_frame :
    (∀ (db : DB) (user_id : Nat) (r : Unit) (db2 : DB),
       delete_user user_id db = .ok (r, db2) →
       db2.tasks = db.tasks
       ∧ (∀ u : User, u ∈ db2.users ↔ u ∈ db.users ∧ u.id ≠ user_id)
       ∧ (∀ a b : Nat, (a, b) ∈ db2.assignments ↔
            (a, b) ∈ db.assignments ∧ a ≠ user_id))
    ∧ (∀ (db : DB) (task_id : Nat) (cu : User) (r : Unit) (db2 : DB),
       delete_task task_id cu db = .ok (r, db2) →
       db2.users = db.users
       ∧ (∀ t : Task, t ∈ db2.tasks ↔ t ∈ db.tasks ∧ t.id ≠ task_id)
       ∧ (∀ a b : Nat, (a, b) ∈ db2.assignments ↔
            (a, b) ∈ db.assignments ∧ b ≠ task_id)) := by
  constructor
  · intro db user_id r db2 hok
    unfold delete_user at hok
    split at hok
    · cases hok
    · cases hok
      refine ⟨rfl, ?_, ?_⟩
      · intro u
        simp [List.mem_filter]
      · intro a b
        simp [List.mem_filter]
  · intro db task_id cu r db2 hok
    unfold delete_task at hok
    split at hok
    · cases hok
    · cases hok
      refine ⟨rfl, ?_, ?_⟩
      · intro t
        simp [List.mem_filter]
      · intro a b
        simp [List.mem_filter]

/-- C9 witness: deleting `userB` from a concrete database keeps the tasks
table; deleting `taskT` keeps the users table. -/
theorem delete_frame_witness :
    (⟨[userA], [taskT], [(1, 1)]⟩ : DB).tasks = dbBoth.tasks
    ∧ (⟨[userA, userB], [], []⟩ : DB).users = dbBoth.users :=
  ⟨(delete_frame.1 dbBoth 2 () ⟨[userA], [taskT], [(1, 1)]⟩ (by rfl)).1,
   (delete_frame.2 dbBoth 1 userA () ⟨[userA, userB], [], []⟩ (by rfl)).1⟩

/-- C3 (amended): a request naming a missing task gets a 404 from the task
router's `TaskNotFoundException`, but a request naming a missing user gets a
**400** (`UserException`), and the user router's own missing-task check in
`assign_task_to_user` is also a 400. -/
theorem missing_resource_codes :
    (∀ (db : DB) (user_id : Nat),
       db.users.all (fun u => u.id != user_id) = true →
       get_user user_id db =
         .error ⟨400, "User ID " ++ toString user_id ++ " not found"⟩)
    ∧ (∀ (db : DB) (task_id : Nat) (cu : User),
       db.tasks.all (fun t => t.id != task_id) = true →
       get_task task_id cu db = .error ⟨404, "Task not found"⟩)
    ∧ (∀ (db : DB) (user_id task_id : Nat) (u : User),
       get_user user_id db = .ok u →
       db.tasks.all (fun t => t.id != task_id) = true →
       assign_task_to_user user_id task_id db =
         .error ⟨400, "Task ID " ++ toString task_id ++ " not found"⟩) := by
  have hfu : ∀ (l : List User) (user_id : Nat),
      l.all (fun u => u.id != user_id) = true →
      l.find? (fun u => u.id == user_id) = none := by
    intro l user_id hall
    rw [List.find?_eq_none]
    intro x hx
    have hx2 := (List.all_eq_true.mp hall) x hx
    simp only [bne_iff_ne, ne_eq] at hx2
    simp [hx2]
  have hft : ∀ (l : List Task) (task_id : Nat),
      l.all (fun t => t.id != task_id) = true →
      l.find? (fun t => t.id == task_id) = none := by
    intro l task_id hall
    rw [List.find?_eq_none]
    intro x hx
    have hx2 := (List.all_eq_true.mp hall) x hx
    simp only [bne_iff_ne, ne_eq] at hx2
    simp [hx2]
  refine ⟨?_, ?_, ?_⟩
  · intro db user_id hall
    unfold get_user
    rw [hfu db.users user_id hall]
  · intro db task_id cu hall
    unfold get_task
    rw [hft db.tasks task_id hall]
  · intro db user_id task_id u hok hall
    unfold assign_task_to_user
    rw [hok, hft db.tasks task_id hall]

/-- C3 witness: on a concrete database, a missing user is a 400 and a
missing task a 404. -/
theorem missing_resource_codes_witness :
    get_user 5 dbBoth = .error ⟨400, "User ID " ++ toString (5 : Nat) ++ " not found"⟩
    ∧ get_task 5 userA dbBoth = .error ⟨404, "Task not found"⟩ :=
  ⟨missing_resource_codes.1 dbBoth 5 (by decide),
   missing_resource_codes.2.1 dbBoth 5 userA (by decide)⟩

/-- C3 counterexample: a user endpoint answering a missing user id returns
status 400, not the claimed 404. -/
theorem missing_resource_codes_cex :
    get_user 7 emptyDB = .error ⟨400, "User ID 7 not found"⟩
    ∧ (handle none none 0 (.getUserById 7) emptyDB).1 = 400 :=
  ⟨rfl, rfl⟩

/-- C8: when the join row (user id, task id) already exists, both assignment
endpoints answer 400 and leave the database — in particular the join
rows — unchanged: the user-side endpoint unconditionally, the task-side
endpoint for any authenticated caller with access to the task. -/
theorem duplicate_assignment_rejected :
    (∀ (db : DB) (u : User) (t : Task) (user_id task_id : Nat)
       (a : Option AuthHeader) (c : Option Jwt) (now : Nat),
       db.users.find? (fun x => x.id == user_id) = some u →
       db.tasks.find? (fun x => x.id == task_id) = some t →
       db.isAssigned user_id task_id = true →
       handle a c now (.assignTaskUser user_id task_id) db = (400, db))
    ∧ (∀ (db : DB) (cu u : User) (t : Task) (user_id task_id : Nat)
       (a : Option AuthHeader) (c : Option Jwt) (now : Nat),
       get_current_user a c db now jwt_secret_key = .ok cu →
       db.tasks.find? (fun x => x.id == task_id) = some t →
       db.isAssigned cu.id task_id = true →
       db.users.find? (fun x => x.id == user_id) = some u →
       db.isAssigned user_id task_id = true →
       handle a c now (.assignUserTask task_id user_id) db = (400, db)) := by
  constructor
  · intro db u t user_id task_id a c now hfu hft hass
    have hu : u.id = user_id := by simpa using List.find?_some hfu
    have ht : t.id = task_id := by simpa using List.find?_some hft
    show outM 201 db (assign_task_to_user user_id task_id db) = (400, db)
    unfold assign_task_to_user get_user
    rw [hfu, hft]
    simp only []
    rw [hu, ht, hass]
    rfl
  · intro db cu u t user_id task_id a c now hauth hft hcass hfu hass
    have hu : u.id = user_id := by simpa using List.find?_some hfu
    have ht : t.id = task_id := by simpa using List.find?_some hft
    show (match get_current_user a c db now jwt_secret_key with
          | .error e => (e.code, db)
          | .ok cu => outM 201 db (assign_user_to_task task_id user_id cu db)) =
        (400, db)
    rw [hauth]
    simp only []
    unfold assign_user_to_task get_task get_user
    rw [hft, hfu]
    simp only []
    rw [ht, hcass]
    simp only [if_true]
    rw [hu, ht, hass]
    rfl

/-- C8 witness: on a concrete database where (2, 1) is already assigned,
both endpoints answer 400 and return the incoming state. -/
theorem duplicate_assignment_rejected_witness :
    handle none none 0 (.assignTaskUser 2 1) dbBoth = (400, dbBoth)
    ∧ handle (some (.bearer tokenA)) none 10 (.assignUserTask 1 2) dbBoth =
        (400, dbBoth) :=
  ⟨duplicate_assignment_rejected.1 dbBoth userB taskT 2 1 none none 0 rfl rfl rfl,
   duplicate_assignment_rejected.2 dbBoth userA userB taskT 2 1
     (some (.bearer tokenA)) none 10 rfl rfl rfl rfl rfl⟩

/-- C1 (amended): through the task router, a task is visible to the caller
exactly when the caller is in its assigned set — `get_task` returns the task
iff a join row (caller id, task id) exists, and the task list under default
pagination is exactly the caller's assigned tasks.  (The user router's read
paths are not caller-scoped; see the counterexample.) -/
theorem task_visibility :
    (∀ (db : DB), db.WF → ∀ (cu : User) (task_id : Nat) (t : Task),
       (get_task task_id cu db = .ok t ↔
         t ∈ db.tasks ∧ t.id = task_id ∧ db.isAssigned cu.id task_id = true))
    ∧ (∀ (db : DB) (cu : User) (t : Task),
       t ∈ get_tasks 0 db.tasks.length none none cu db ↔
         t ∈ db.tasks ∧ db.isAssigned cu.id t.id = true) := by
  constructor
  · intro db hwf cu task_id t
    constructor
    · intro hok
      unfold get_task at hok
      cases hf : db.tasks.find? (fun x => x.id == task_id) with
      | none => rw [hf] at hok; cases hok
      | some task =>
        rw [hf] at hok
        have hok2 : (if db.isAssigned cu.id task.id = true then Except.ok task
            else Except.error (⟨403, "Not authorized to access this task"⟩ : Fail))
            = Except.ok t := hok
        by_cases hcond : db.isAssigned cu.id task.id = true
        · rw [if_pos hcond] at hok2
          have hid : task.id = task_id := by simpa using List.find?_some hf
          have hmem := List.mem_of_find?_eq_some hf
          rw [← hid] at *
          cases hok2
          exact ⟨hmem, hid, hcond⟩
        · rw [if_neg hcond] at hok2
          cases hok2
    · rintro ⟨hmem, rfl, hass⟩
      unfold get_task
      rw [find?_by_key Task.id db.tasks hwf.2.1 t hmem]
      simp [hass]
  · intro db cu t
    have hred : get_tasks 0 db.tasks.length none none cu db =
        (db.tasks.filter (fun x => db.isAssigned cu.id x.id)).take
          db.tasks.length := rfl
    have hlen : (db.tasks.filter (fun x => db.isAssigned cu.id x.id)).length ≤
        db.tasks.length := List.length_filter_le _ _
    rw [hred, List.take_of_length_le hlen]
    simp [List.mem_filter]

/-- C1 witness: on a concrete well-formed database, `get_task` returns the
task to an assigned caller. -/
theorem task_visibility_witness :
    get_task 1 userA dbBoth = .ok taskT
    ∧ taskT ∈ get_tasks 0 dbBoth.tasks.length none none userA dbBoth :=
  ⟨(task_visibility.1 dbBoth (by decide) userA 1 taskT).mpr
     ⟨List.mem_singleton.mpr rfl, rfl, rfl⟩,
   (task_visibility.2 dbBoth userA taskT).mpr
     ⟨List.mem_singleton.mpr rfl, rfl⟩⟩

/-- C1 counterexample: `GET /users/2/tasks` is served with no authentication
(200) and its body lists `taskT`, although — user 1, like any caller other
than user 2's assigned set, not holding a join row — `(1, 1)` is not in the
join table: a read path reveals a task to callers outside its assigned
set. -/
theorem task_visibility_cex :
    get_user_tasks 2 none dbLeak = .ok [taskT]
    ∧ dbLeak.isAssigned 1 1 = false
    ∧ handle none none 0 (.userTasks 2 none) dbLeak = (200, dbLeak) :=
  ⟨rfl, rfl, rfl⟩

/-- C2 (amended): every task endpoint is gated by `get_current_user` — a
request whose token does not resolve is answered 401 with the database
unchanged — but no user endpoint is gated: a user-endpoint response never
depends on the credentials supplied. -/
theorem endpoint_gating :
    (∀ (req : ApiReq) (a : Option AuthHeader) (c : Option Jwt) (now : Nat)
       (db : DB) (e : Fail),
       req.isTaskEndpoint = true →
       get_current_user a c db now jwt_secret_key = .error e →
       handle a c now req db = (401, db))
    ∧ (∀ (req : ApiReq) (a a2 : Option AuthHeader) (c c2 : Option Jwt)
       (now now2 : Nat) (db : DB),
       req.isTaskEndpoint = false →
       handle a c now req db = handle a2 c2 now2 req db) := by
  constructor
  · intro req a c now db e hreq hauth
    have hcode : e.code = 401 :=
      get_current_user_code a c db now jwt_secret_key e hauth
    cases req <;> simp_all [handle, ApiReq.isTaskEndpoint]
  · intro req a a2 c c2 now now2 db hreq
    cases req
    all_goals (try rfl)
    all_goals (simp [ApiReq.isTaskEndpoint] at hreq)

/-- C2 witness: a tokenless task request is a 401 leaving the database
untouched; a user request answers identically with and without
credentials. -/
theorem endpoint_gating_witness :
    handle none none 0 (.getTaskById 1) dbBoth = (401, dbBoth)
    ∧ handle none (some tokenA) 0 (.getUserById 1) dbBoth =
        handle (some (.bearer tokenA)) none 5 (.getUserById 1) dbBoth :=
  ⟨endpoint_gating.1 (.getTaskById 1) none none 0 dbBoth
     ⟨401, "Not authenticated"⟩ rfl rfl,
   endpoint_gating.2 (.getUserById 1) none (some (.bearer tokenA))
     (some tokenA) none 0 5 dbBoth rfl⟩

/-- C2 counterexample: with no token at all, the user-side assignment
endpoint answers 201 — not 401 — and creates the join row (1, 1). -/
theorem endpoint_gating_cex :
    handle none none 0 (.assignTaskUser 1 1) dbUnassigned =
      (201, ⟨[userA], [taskT], [(1, 1)]⟩)
    ∧ dbUnassigned.assignments = [] :=
  ⟨rfl, rfl⟩

end Fring
